import Mathlib

/-
Verification of the jeepney-objects registry/dispatch layer.

The development shallowly embeds the Python sources:
  * `src/jeepney_objects/dbus_property.py`  -> `DBusProperty`
  * `src/jeepney_objects/dbus_interface.py` -> `DBusInterface` and its methods
  * `src/jeepney_objects/dbus_node.py`      -> `DBusNode` (path tree, introspection)
  * `src/jeepney_objects/dbus_object.py`    -> `Node`, `PathAccessor`, `DBusObject`
    (the self-contained dispatcher module, whose `Node` stores `interfaces` as a
    Python list that the registration code indexes like a dict, and whose message
    handlers subscript the `DBusObject` itself — `self[path]` — although only
    `PathAccessor` defines `__getitem__`)

Python dicts are modelled as association lists in insertion order (lookup by
first key match, update in place, new keys appended at the end), Python tuples
and other dynamic values by the inductive `Value`, and raised exceptions by
`Except PyException`.
-/

/-- A dynamically typed Python value as it appears in message bodies,
property values and exception argument tuples. -/
inductive Value where
  | str (s : String)
  | int (i : Int)
  | none
  | tuple (vs : List Value)
  | list (vs : List Value)

mutual

/-- Python `repr()` of a value: strings quoted, a one-element tuple with
its trailing comma. The quote switching and escaping `repr()` performs for
strings that themselves contain quote or backslash characters is not
modelled; no error message any claim relies on formats such a value. -/
def pyRepr : Value → String
  | .str s => "'" ++ s ++ "'"
  | .int i => toString i
  | .none => "None"
  | .tuple [v] => "(" ++ pyRepr v ++ ",)"
  | .tuple vs => "(" ++ pyReprSep vs ++ ")"
  | .list vs => "[" ++ pyReprSep vs ++ "]"

/-- Comma-separated `repr()` of the members of a tuple or list. -/
def pyReprSep : List Value → String
  | [] => ""
  | [v] => pyRepr v
  | v :: vs => pyRepr v ++ ", " ++ pyReprSep vs

end

/-- Python `str()` as interpolated by an f-string: a bare string stays
unquoted, every other value renders as its `repr()` (nested members
quoted, one-element tuples with the trailing comma). -/
def pyFormat : Value → String
  | .str s => s
  | v => pyRepr v

/-- A raised Python exception: its class name and its `args` tuple. -/
structure PyException where
  kind : String
  args : List Value

/-- The Python type name of a value, as it appears in interpreter error
messages such as the one raised by indexing a list with a string. -/
def pyTypeNameOfValue : Value → String
  | .str _ => "str"
  | .int _ => "int"
  | .none => "NoneType"
  | .tuple _ => "tuple"
  | .list _ => "list"

/-- A method handler. User-registered callables are opaque functions from the
splatted message body to a pair of signature and body tuple, or a raised
exception. The handlers that the sources attach themselves (bound methods of
`DBusNode` and `DBusInterface`, and the unbound `DBusInterface.introspect`
stored by `dbus_object.introspectable_interface`) are defunctionalised into
named constructors because they close over the object holding them. -/
inductive Handler where
  | introspect
  | propertyGet
  | propertyGetAll
  | propertySet
  | ifaceIntrospect
  | user (f : List Value → Except PyException (String × List Value))

/-- Calling a handler with the unpacked message body, as
`method(*msg.body)` does in `DBusObject._handle_method_call`. The bound
default handlers are attached only by `dbus_node.DBusNode`, for which this
code base contains no dispatcher, so no call site for them exists; the
unbound `DBusInterface.introspect` applied to message values raises a
`TypeError` in Python because its `self` parameter receives a message value. -/
def Handler.call (h : Handler) (args : List Value) :
    Except PyException (String × List Value) :=
  match h with
  | .user f => f args
  | .ifaceIntrospect =>
      .error ⟨"TypeError", [.str "introspect() missing a DBusInterface self argument"]⟩
  | _ => .error ⟨"TypeError", [.str "bound default handler invoked outside its object"]⟩

/-- Python dict lookup on an insertion-ordered association list. -/
def dictGet? {κ β : Type} [DecidableEq κ] : List (κ × β) → κ → Option β
  | [], _ => Option.none
  | kv :: rest, k => if kv.1 = k then some kv.2 else dictGet? rest k

/-- Python dict store: updates the entry in place if the key is present,
otherwise appends the new entry at the end (insertion order). -/
def dictSet {κ β : Type} [DecidableEq κ] : List (κ × β) → κ → β → List (κ × β)
  | [], k, v => [(k, v)]
  | kv :: rest, k, v =>
      if kv.1 = k then (k, v) :: rest else kv :: dictSet rest k v

/-- `dbus_property.DBusProperty` (and its duplicate inside `dbus_object.py`):
a named, typed, access-controlled value cell; `access` defaults to
`"readwrite"`. -/
structure DBusProperty where
  name : String
  signature : String
  value : Value
  access : String

/-- `DBusProperty` with the dataclass default for `access`. -/
def DBusProperty.create (name signature : String) (value : Value)
    (access : String := "readwrite") : DBusProperty :=
  ⟨name, signature, value, access⟩

/-- `dbus_interface.DBusInterface` (textually duplicated inside
`dbus_object.py`, where `name` is annotated `str` instead of
`Optional[str]`): a named collection of method handlers and properties, both
insertion-ordered dicts. -/
structure DBusInterface where
  name : Option String
  methods : List (String × Handler)
  properties : List (String × DBusProperty)

/-- `DBusInterface.set_handler`: `self.methods[method_name] = handler`. -/
def DBusInterface.set_handler (i : DBusInterface) (method_name : String)
    (handler : Handler) : DBusInterface :=
  { i with methods := dictSet i.methods method_name handler }

/-- `DBusInterface.get_handler`: returns `self.methods[method_name]` when
present, otherwise raises `KeyError(f"Unregistered method: [method_name]")`. -/
def DBusInterface.get_handler (i : DBusInterface) (method_name : String) :
    Except PyException Handler :=
  match dictGet? i.methods method_name with
  | some h => .ok h
  | Option.none =>
      .error ⟨"KeyError", [.str ("Unregistered method: '" ++ method_name ++ "'")]⟩

/-- `DBusInterface.set_property`: for an existing property, raises
`PermissionError(f"[prop_name]: Property not settable")` when its access is
`"read"` (before touching either field), else overwrites `signature` and
`value` in place; for a missing property, creates it with the default
`readwrite` access. -/
def DBusInterface.set_property (i : DBusInterface) (prop_name signature : String)
    (value : Value) : Except PyException DBusInterface :=
  match dictGet? i.properties prop_name with
  | some prop =>
      if prop.access = "read" then
        .error ⟨"PermissionError", [.str (prop_name ++ ": Property not settable")]⟩
      else
        let prop2 := { prop with signature := signature, value := value }
        .ok { i with properties := dictSet i.properties prop_name prop2 }
  | Option.none =>
      let newprop := DBusProperty.create prop_name signature value
      .ok { i with properties := dictSet i.properties prop_name newprop }

/-- `DBusInterface.get_property`: `(prop.signature, prop.value)` for an
existing property, otherwise
`KeyError(f"Property [prop_name] not registered on this interface")`. -/
def DBusInterface.get_property (i : DBusInterface) (prop_name : String) :
    Except PyException (String × Value) :=
  match dictGet? i.properties prop_name with
  | Option.none =>
      .error ⟨"KeyError",
        [.str ("Property '" ++ prop_name ++ "' not registered on this interface")]⟩
  | some prop => .ok (prop.signature, prop.value)

/-- `DBusInterface.get_all_properties`: the source builds
`items = [(k, (v.signature, v.value)) for k, v in props.items()]` in dict
(insertion) order and returns the one-element tuple `(items,)`. -/
def DBusInterface.get_all_properties (i : DBusInterface) : Value :=
  Value.tuple [Value.list (i.properties.map
    (fun kv => Value.tuple [Value.str kv.1, Value.tuple [Value.str kv.2.signature, kv.2.value]]))]

/-- The path tree node of `dbus_node.DBusNode`: a dataclass with a segment
name, an interface table keyed by interface name, and an ordered child list. -/
inductive DBusNode where
  | mk (name : String) (interfaces : List (Option String × DBusInterface))
      (children : List DBusNode)

/-- Field `name` of `DBusNode`. -/
def DBusNode.name : DBusNode → String
  | .mk n _ _ => n

/-- Field `interfaces` of `DBusNode`. -/
def DBusNode.interfaces : DBusNode → List (Option String × DBusInterface)
  | .mk _ i _ => i

/-- Field `children` of `DBusNode`. -/
def DBusNode.children : DBusNode → List DBusNode
  | .mk _ _ c => c

/-- In-place replacement of the child at an index, the effect of mutating a
child subtree through the alias obtained while walking the tree. -/
def DBusNode.setChild : DBusNode → Nat → DBusNode → DBusNode
  | .mk n ifs cs, i, c => .mk n ifs (cs.set i c)

/-- `self.children.append(new)`. -/
def DBusNode.appendChild : DBusNode → DBusNode → DBusNode
  | .mk n ifs cs, c => .mk n ifs (cs ++ [c])

/-- `DBusNode.introspectable_interface`: a fresh interface named
`org.freedesktop.DBus.Introspectable` whose only method is `Introspect`,
bound to the node (defunctionalised to `Handler.introspect`). -/
def DBusNode.introspectable_interface : DBusInterface :=
  (DBusInterface.mk (some "org.freedesktop.DBus.Introspectable") [] []).set_handler
    "Introspect" Handler.introspect

/-- `DBusNode.properties_interface`: a fresh interface named
`org.freedesktop.DBus.Properties` with handlers `Get`, `GetAll` and `Set`
bound to the interface itself (defunctionalised constructors). -/
def DBusNode.properties_interface : DBusInterface :=
  (((DBusInterface.mk (some "org.freedesktop.DBus.Properties") [] []).set_handler
    "Get" Handler.propertyGet).set_handler
    "GetAll" Handler.propertyGetAll).set_handler
    "Set" Handler.propertySet

/-- `DBusNode.default_interfaces`: builds `ifaces = {}` and stores the
introspectable interface and then the properties interface under their
names. -/
def DBusNode.default_interfaces : List (Option String × DBusInterface) :=
  dictSet
    (dictSet [] DBusNode.introspectable_interface.name DBusNode.introspectable_interface)
    DBusNode.properties_interface.name DBusNode.properties_interface

/-- Construction of a `DBusNode`: the dataclass constructor takes `name`,
`interfaces` and `children` (the latter two defaulting to empty), and
`__post_init__` then unconditionally replaces `self.interfaces` with
`self.default_interfaces()`, discarding whatever mapping was passed in. -/
def DBusNode.create (name : String)
    (interfaces : List (Option String × DBusInterface) := [])
    (children : List DBusNode := []) : DBusNode :=
  DBusNode.mk name DBusNode.default_interfaces children

/-- The fixed list `default` inside `DBusNode.has_custom_interfaces`. -/
def dbusNodeDefaultIfaceNames : List (Option String) :=
  [some "org.freedesktop.Application",
   some "org.freedesktop.DBus.Introspectable",
   some "org.freedesktop.DBus.Peer",
   some "org.freedesktop.DBus.Properties"]

/-- `DBusNode.has_custom_interfaces`:
`not set(default).issuperset(self.interfaces)`, i.e. true exactly when some
interface key lies outside the fixed default name set. -/
def DBusNode.has_custom_interfaces (t : DBusNode) : Bool :=
  !(t.interfaces.all (fun kv => dbusNodeDefaultIfaceNames.any (fun d => d = kv.1)))

/-- An XML element tree as built with `xml.etree.ElementTree`. -/
inductive Xml where
  | elem (tag : String) (attrs : List (String × String)) (children : List Xml)

/-- The call `iface.to_xml()` made by `DBusNode.to_xml` for every attached
interface: `dbus_interface.DBusInterface` defines no `to_xml` method (only
`DBusProperty` and `DBusMethod` carry one), so the attribute access raises
`AttributeError` in Python. -/
def ifaceToXml : DBusInterface → Except PyException Xml :=
  fun _ =>
    .error ⟨"AttributeError", [.str "'DBusInterface' object has no attribute 'to_xml'"]⟩

/-- `DBusNode.to_xml`: creates a `node` element; when the node has no
children or has a custom interface it appends `iface.to_xml()` for every
attached interface (which raises, see `ifaceToXml`); it then appends a
name-only `node` stub for every child. -/
def DBusNode.to_xml (t : DBusNode) : Except PyException Xml := do
  let bodies ←
    if t.children.isEmpty || t.has_custom_interfaces then
      t.interfaces.mapM (fun kv => ifaceToXml kv.2)
    else
      .ok []
  .ok (Xml.elem "node" []
    (bodies ++ t.children.map (fun c => Xml.elem "node" [("name", c.name)] [])))

/-- Python `path.strip(c)` for a single strip character. -/
def pyStripChar (c : Char) (s : List Char) : List Char :=
  ((s.dropWhile (fun x => x = c)).reverse.dropWhile (fun x => x = c)).reverse

/-- Python `p.partition(c)` restricted to the pieces the source uses: the
text before the first separator and the text after it (empty when the
separator does not occur). -/
def pyPartitionChar (c : Char) (s : List Char) : List Char × List Char :=
  (s.takeWhile (fun x => x ≠ c), (s.dropWhile (fun x => x ≠ c)).tail)

/-- The `for child in self.children: if child.name == root` scan inside
`DBusNode.get_path`: the first child with the given name, together with its
position. -/
def DBusNode.findChild : List DBusNode → String → Option (Nat × DBusNode)
  | [], _ => Option.none
  | c :: cs, s =>
      if c.name = s then some (0, c)
      else
        match DBusNode.findChild cs s with
        | some (i, d) => some (i + 1, d)
        | Option.none => Option.none

/-- `DBusNode.get_path(path, ensure)`: strips separators, splits off the
first segment, returns the node itself on an empty segment, recurses into
the first matching child, and otherwise either creates and appends a fresh
node (when `ensure` holds) and continues from it, or raises
`KeyError("Path doesn't exist")`. The result pairs the updated tree (Python
mutates it in place) with the index path of the resolved node. -/
def DBusNode.get_path (t : DBusNode) (path : List Char) (ensure : Bool) :
    Except PyException (DBusNode × List Nat) :=
  let p := pyStripChar '/' path
  let pr := pyPartitionChar '/' p
  if hroot : pr.1 = [] then .ok (t, [])
  else
    match DBusNode.findChild t.children (String.mk pr.1) with
    | some (i, child) =>
        match child.get_path pr.2 ensure with
        | .ok (child2, addr) => .ok (t.setChild i child2, i :: addr)
        | .error e => .error e
    | Option.none =>
        if ensure then
          match (DBusNode.create (String.mk pr.1)).get_path pr.2 ensure with
          | .ok (new2, addr) => .ok (t.appendChild new2, t.children.length :: addr)
          | .error e => .error e
        else .error ⟨"KeyError", [.str "Path doesn't exist"]⟩
termination_by path.length
decreasing_by
  all_goals
    have hple : (pyStripChar '/' path).length ≤ path.length := by
      unfold pyStripChar
      calc (((path.dropWhile (fun x => x = '/')).reverse.dropWhile
              (fun x => x = '/')).reverse).length
          = ((path.dropWhile (fun x => x = '/')).reverse.dropWhile
              (fun x => x = '/')).length := List.length_reverse _
        _ ≤ (path.dropWhile (fun x => x = '/')).reverse.length :=
            (List.dropWhile_sublist _).length_le
        _ = (path.dropWhile (fun x => x = '/')).length := List.length_reverse _
        _ ≤ path.length := (List.dropWhile_sublist _).length_le
  all_goals
    have hne : pyStripChar '/' path ≠ [] := by
      intro hnil
      apply hroot
      show (pyPartitionChar '/' (pyStripChar '/' path)).1 = []
      simp only [pyPartitionChar, hnil, List.takeWhile_nil]
  all_goals
    have hlt : ((pyStripChar '/' path).dropWhile (fun x => x ≠ '/')).tail.length
        < (pyStripChar '/' path).length := by
      cases hd : (pyStripChar '/' path).dropWhile (fun x => x ≠ '/') with
      | nil =>
          simp only [List.tail_nil, List.length_nil]
          exact List.length_pos.mpr hne
      | cons x xs =>
          have h1 : (x :: xs).length ≤ (pyStripChar '/' path).length := by
            rw [← hd]; exact (List.dropWhile_sublist _).length_le
          simp only [List.tail_cons]
          exact Nat.lt_of_lt_of_le (by simp [List.length_cons]) h1
  all_goals
    show ((pyStripChar '/' path).dropWhile (fun x => x ≠ '/')).tail.length < path.length
    exact Nat.lt_of_lt_of_le hlt hple

/-- The node of a tree at an index path, when every index is in range. -/
def nodeAt : DBusNode → List Nat → Option DBusNode
  | t, [] => some t
  | t, i :: rest =>
      match t.children.get? i with
      | some c => nodeAt c rest
      | Option.none => Option.none

/-- The chain of nodes that `get_path` creates below an existing node when
`ensure` holds: every node carries the freshly attached default interfaces,
and each one is the single (hence last) child of its parent. -/
def freshChain : String → List String → DBusNode
  | s, [] => DBusNode.create s
  | s, r :: rest => (DBusNode.create s).appendChild (freshChain r rest)

/-- The index path to the end of a fresh chain: each created node is the
only child of the previous one. -/
def chainAddr : List String → List Nat
  | [] => []
  | _ :: rest => 0 :: chainAddr rest

/-- `NewChain t t2 addr` says that `t2` is `t` with a chain of freshly
created default-interface nodes grafted at some node reachable in `t`, the
first chain node appended at the end of that node's existing children list,
and that `addr` is the index path of the final chain node in `t2`. This is
exactly the shape of tree update that a creating `get_path` walk performs. -/
inductive NewChain : DBusNode → DBusNode → List Nat → Prop where
  | graft (t : DBusNode) (s : String) (rest : List String) :
      NewChain t (t.appendChild (freshChain s rest)) (t.children.length :: chainAddr rest)
  | deeper (t child c2 : DBusNode) (addr : List Nat) (i : Nat) :
      t.children.get? i = some child → NewChain child c2 addr →
      NewChain t (t.setChild i c2) (i :: addr)

/-- The kind of a bus message (`jeepney.low_level.MessageType`), restricted
to the kinds the dispatcher distinguishes. -/
inductive MessageType where
  | methodCall
  | methodReturn
  | error
  | signal
deriving DecidableEq

/-- An inbound message as `DBusObject.handle_msg` reads it. The header
fields that the bus requires on delivered method calls (`path`, `member`,
`sender`) are modelled as total; `interface` is read with
`fields.get(..., None)` and is optional. The signature header field is never
read by the dispatcher and is omitted. -/
structure PyMessage where
  messageType : MessageType
  path : String
  member : String
  interface : Option String
  sender : String
  body : List Value

/-- An outbound reply message as produced by the jeepney constructors
`new_method_return` and `new_error` and then stamped by `handle_msg`. -/
structure OutMessage where
  messageType : MessageType
  error_name : Option String
  signature : Option String
  body : Value
  destination : Option String
  sender : Option String

/-- The external constructor `jeepney.wrappers.new_method_return`. -/
def jeepneyNewMethodReturn (_parent : PyMessage) (signature : String)
    (body : Value) : OutMessage :=
  ⟨MessageType.methodReturn, Option.none, some signature, body, Option.none, Option.none⟩

/-- The external constructor `jeepney.wrappers.new_error`. -/
def jeepneyNewError (_parent : PyMessage) (error_name : String)
    (signature : Option String) (body : Value) : OutMessage :=
  ⟨MessageType.error, some error_name, signature, body, Option.none, Option.none⟩

/-- The path tree node defined inside `dbus_object.py`: unlike
`dbus_node.DBusNode`, its `interfaces` field is a Python list. -/
inductive Node where
  | mk (name : String) (interfaces : List DBusInterface) (children : List Node)

/-- Field `name` of the dispatcher `Node`. -/
def Node.name : Node → String
  | .mk n _ _ => n

/-- Field `interfaces` of the dispatcher `Node`. -/
def Node.interfaces : Node → List DBusInterface
  | .mk _ i _ => i

/-- Field `children` of the dispatcher `Node`. -/
def Node.children : Node → List Node
  | .mk _ _ c => c

/-- The module-level `introspectable_interface()` of `dbus_object.py`,
including its misspelled interface and method names; the stored handler is
the unbound `DBusInterface.introspect`. -/
def introspectable_interface : DBusInterface :=
  DBusInterface.mk (some "org.freedestkop.DBus.Introspectable")
    [("Instrospect", Handler.ifaceIntrospect)] []

/-- Construction of a dispatcher `Node`: the dataclass fields, after which
`__post_init__` appends `introspectable_interface()` to the interfaces
list. -/
def Node.create (name : String) (interfaces : List DBusInterface := [])
    (children : List Node := []) : Node :=
  Node.mk name (interfaces ++ [introspectable_interface]) children

/-- Python `path.lstrip(c)` for a single strip character. -/
def pyLstrip (c : Char) (s : String) : String :=
  String.mk (s.toList.dropWhile (fun x => x = c))

/-- Python `s.split(c)` for a single separator character: keeps empty
components, and splitting the empty string yields one empty component. -/
def pySplitChar (c : Char) : List Char → List (List Char)
  | [] => [[]]
  | x :: xs =>
      match pySplitChar c xs with
      | [] => [[]]
      | h :: t => if x = c then [] :: h :: t else (x :: h) :: t

/-- String-level wrapper around `pySplitChar`. -/
def pySplit (c : Char) (s : String) : List String :=
  (pySplitChar c s.toList).map String.mk

/-- The `for child in node.children: if child.name == part` scan inside
`PathAccessor.get_node`. -/
def Node.findChild : List Node → String → Option Node
  | [], _ => Option.none
  | c :: cs, s => if c.name = s then some c else Node.findChild cs s

/-- `dbus_object.PathAccessor`: wraps the root node for `[]` access. -/
structure PathAccessor where
  root_node : Node

/-- `PathAccessor.get_node`: returns the root for the path `/`, otherwise
walks the components of `path.lstrip('/').split('/')` through first-matching
children, raising `KeyError(f"Path [path] not found?")` at the first
component with no match. It never creates nodes. -/
def PathAccessor.get_node (self : PathAccessor) (path : String) :
    Except PyException Node :=
  if path = "/" then .ok self.root_node
  else
    (pySplit '/' (pyLstrip '/' path)).foldlM
      (fun node part =>
        match Node.findChild node.children part with
        | some c => .ok c
        | Option.none =>
            .error ⟨"KeyError", [.str ("Path " ++ path ++ " not found?")]⟩)
      self.root_node

/-- The dispatcher state: `__init__` sets `name = None` and
`paths = PathAccessor(Node(''))`; the session-bus connection it also opens
is transport glue outside this model. -/
structure DBusObject where
  name : Option String
  paths : PathAccessor

/-- A freshly constructed `DBusObject`. -/
def DBusObject.init : DBusObject :=
  ⟨Option.none, ⟨Node.create ""⟩⟩

/-- The membership test `interface not in node.interfaces` (negated here):
Python compares the string (or `None`) key against the `DBusInterface`
dataclass instances in the list with `==`, which is always false between
those types. -/
def pyKeyInIfaceList : Option String → List DBusInterface → Bool :=
  fun _ _ => false

/-- Python list subscript `l[key]` with a string or `None` subscript: always
`TypeError("list indices must be integers or slices, not ...")`. -/
def pyListGetItemStrKey {α : Type} : List α → Option String → Except PyException α :=
  fun _ k =>
    .error ⟨"TypeError", [.str ("list indices must be integers or slices, not "
      ++ (match k with | Option.none => "NoneType" | some _ => "str"))]⟩

/-- Python list subscript assignment `l[key] = v` with a string or `None`
subscript: the same `TypeError` as reading. -/
def pyListSetItemStrKey {α : Type} : List α → Option String → α →
    Except PyException (List α) :=
  fun _ k _ =>
    .error ⟨"TypeError", [.str ("list indices must be integers or slices, not "
      ++ (match k with | Option.none => "NoneType" | some _ => "str"))]⟩

/-- Python list subscript `l[v]` with an arbitrary message value: integer
subscripts index with negative wrap-around, anything else raises the
interpreter `TypeError`. -/
def pyListGetItemValue {α : Type} (l : List α) (v : Value) : Except PyException α :=
  match v with
  | .int i =>
      let j : Int := if i < 0 then i + l.length else i
      if h : 0 ≤ j ∧ j.toNat < l.length then .ok (l.get ⟨j.toNat, h.2⟩)
      else .error ⟨"IndexError", [.str "list index out of range"]⟩
  | _ =>
      .error ⟨"TypeError", [.str ("list indices must be integers or slices, not "
        ++ pyTypeNameOfValue v)]⟩

/-- Python `body.pop(0)` on `body = list(msg.body)`. -/
def pyPop0 : List Value → Except PyException (Value × List Value)
  | [] => .error ⟨"IndexError", [.str "pop from empty list"]⟩
  | x :: xs => .ok (x, xs)

/-- Python `body[0]`. -/
def pyGetItem0 : List Value → Except PyException Value
  | [] => .error ⟨"IndexError", [.str "list index out of range"]⟩
  | x :: _ => .ok x

/-- `DBusObject.set_handler`: resolves the node (raising `KeyError` for a
missing path, since `PathAccessor.get_node` never creates), then performs
the dict-style membership test and item assignment on the list-typed
`node.interfaces`. The assignment raises `TypeError` whenever it runs, so
the trailing lookup and the in-place `set_handler` call are dead code; the
returned object therefore never reflects a registration. -/
def DBusObject.set_handler (o : DBusObject) (path : String)
    (interface : Option String) (method_name : String) (method : Handler) :
    Except PyException DBusObject := do
  let node ← o.paths.get_node path
  let ifaces ←
    if !(pyKeyInIfaceList interface node.interfaces) then
      pyListSetItemStrKey node.interfaces interface (DBusInterface.mk interface [] [])
    else .ok node.interfaces
  let iface ← pyListGetItemStrKey ifaces interface
  let _ := iface.set_handler method_name method
  .ok o

/-- The `body` parameter of `DBusObject.new_error`: an exception instance,
or a plain value (a string, `None`, or a ready-made tuple). -/
inductive NewErrorBody where
  | exc (e : PyException)
  | val (v : Value)

/-- Python `str(self.name)` as interpolated by the f-string in `new_error`. -/
def pyStrOfOptName : Option String → String
  | some s => s
  | Option.none => "None"

/-- `DBusObject.new_error`: for an exception body, replaces the error name
with the exception class name and the body with `body.args[0]` (raising
`IndexError` when `args` is empty); then namespaces a dot-free error name
as `[self.name].exceptions.[error_name]`; finally a string body becomes the
one-element tuple with signature `s`, a `None` body becomes the empty tuple
with no signature, and any other body passes through with the given
signature. -/
def DBusObject.new_error (o : DBusObject) (parent : PyMessage)
    (body : NewErrorBody) (signature : Option String) (error_name : String) :
    Except PyException OutMessage := do
  let step ←
    match body with
    | .exc e =>
        match e.args with
        | [] => .error ⟨"IndexError", [.str "tuple index out of range"]⟩
        | a :: _ => .ok (e.kind, a)
    | .val v => .ok (error_name, v)
  let name1 :=
    if step.1.toList.contains '.' then step.1
    else pyStrOfOptName o.name ++ ".exceptions." ++ step.1
  match step.2 with
  | .str s => .ok (jeepneyNewError parent name1 (some "s") (Value.tuple [.str s]))
  | .none => .ok (jeepneyNewError parent name1 Option.none (Value.tuple []))
  | v => .ok (jeepneyNewError parent name1 signature v)

/-- `iface.get_property(prop_name)` called with the raw first body element
of a `Get` call: a non-string name never equals any stored string key, so
the lookup misses and reports the standard KeyError with the name rendered
by the f-string. -/
def ifaceGetPropertyRaw (i : DBusInterface) (prop_name : Value) :
    Except PyException (String × Value) :=
  match prop_name with
  | .str s => i.get_property s
  | v =>
      .error ⟨"KeyError",
        [.str ("Property '" ++ pyFormat v ++ "' not registered on this interface")]⟩

/-- The `ValueError` message CPython raises when a two-target unpacking
meets a sequence of a different length. -/
def pyUnpackTwoError (n : Nat) : PyException :=
  if n < 2 then
    ⟨"ValueError", [.str ("not enough values to unpack (expected 2, got "
      ++ toString n ++ ")")]⟩
  else
    ⟨"ValueError", [.str "too many values to unpack (expected 2)"]⟩

/-- The tuple unpacking `prop_name, (signature, value) = body` in the `Set`
branch, with the interpreter failures for wrong shapes; a two-character
string as second element unpacks into its characters as in Python. -/
def pyUnpackSet : List Value → Except PyException (Value × (Value × Value))
  | [a, .tuple [s, v]] => .ok (a, (s, v))
  | [a, .list [s, v]] => .ok (a, (s, v))
  | [a, .str s] =>
      match s.toList with
      | [c1, c2] => .ok (a, (.str (String.mk [c1]), .str (String.mk [c2])))
      | l => .error (pyUnpackTwoError l.length)
  | [_, .tuple l] => .error (pyUnpackTwoError l.length)
  | [_, .list l] => .error (pyUnpackTwoError l.length)
  | [_, v] =>
      .error ⟨"TypeError",
        [.str ("cannot unpack non-iterable " ++ pyTypeNameOfValue v ++ " object")]⟩
  | l => .error (pyUnpackTwoError l.length)

/-- The call `iface.set_property(prop_name, signature, value)` made by the
`Set` branch with raw message values, observed at its call site: the branch
discards the return value (Python mutates the aliased interface in place
and replies nothing), so only the raised exception or its absence is
modelled. A string name with string signature goes through `set_property`;
a string name with a non-string signature passes the same access check and
is then stored in place without an exception; a non-string name always
misses the string-keyed table and is stored as a fresh property, again
without an exception. -/
def ifaceSetPropertyRaw (i : DBusInterface) (a : Value × (Value × Value)) :
    Except PyException Unit :=
  match a with
  | (.str name, (.str sig, v)) => (i.set_property name sig v).map (fun _ => ())
  | (.str name, (_, _)) =>
      match dictGet? i.properties name with
      | some prop =>
          if prop.access = "read" then
            .error ⟨"PermissionError", [.str (name ++ ": Property not settable")]⟩
          else .ok ()
      | Option.none => .ok ()
  | _ => .ok ()

/-- The subscript `self[path]` performed by `_handle_property_msg` and
`_handle_method_call` (dbus_object.py lines 301 and 322): `self` is the
`DBusObject`, which defines no `__getitem__` (only `PathAccessor` does), so
the subscript unconditionally raises
`TypeError("'DBusObject' object is not subscriptable")` before any node or
interface lookup can happen. -/
def pyObjectGetItem : DBusObject → String → Except PyException Node :=
  fun _ _ =>
    .error ⟨"TypeError", [.str "'DBusObject' object is not subscriptable"]⟩

/-- `DBusObject._handle_property_msg`: pops the target interface name from
the body, then evaluates `self[path].interfaces[iface_name]` — whose
`self[path]` unconditionally raises `TypeError`, `DBusObject` having no
`__getitem__` — and would then dispatch on the member: `Get` replying with
`(signature, value)`, `Set` mutating in place with no reply, `GetAll`
replying with the `a\x7bsv\x7d` dict, any other member falling through
with no reply. Everything from the interface lookup on is dead code,
modelled after the source all the same. -/
def DBusObject.handle_property_msg (o : DBusObject) (msg : PyMessage) :
    Except PyException (Option OutMessage) := do
  let path := msg.path
  let method := msg.member
  let popped ← pyPop0 msg.body
  let node ← pyObjectGetItem o path
  let iface ← pyListGetItemValue node.interfaces popped.1
  if method = "Get" then
    let prop_name ← pyGetItem0 popped.2
    let sv ← ifaceGetPropertyRaw iface prop_name
    .ok (some (jeepneyNewMethodReturn msg sv.1 sv.2))
  else if method = "Set" then
    let unpacked ← pyUnpackSet popped.2
    let _ ← ifaceSetPropertyRaw iface unpacked
    .ok Option.none
  else if method = "GetAll" then
    .ok (some (jeepneyNewMethodReturn msg "a{sv}" iface.get_all_properties))
  else .ok Option.none

/-- `DBusObject._handle_method_call`: evaluates
`self[path].interfaces[iface_name]` — whose `self[path]` unconditionally
raises `TypeError`, `DBusObject` having no `__getitem__` — and would then
resolve and invoke the handler and wrap its `(signature, body)` return in a
method-return. The interface subscript (itself a `TypeError` on the
list-typed field), the handler resolution and the invocation are dead code,
modelled after the source all the same. -/
def DBusObject.handle_method_call (o : DBusObject) (msg : PyMessage) :
    Except PyException OutMessage := do
  let node ← pyObjectGetItem o msg.path
  let iface ← pyListGetItemStrKey node.interfaces msg.interface
  let method ← iface.get_handler msg.member
  let sb ← method.call msg.body
  .ok (jeepneyNewMethodReturn msg sb.1 (Value.tuple sb.2))

/-- The body of the `try` block in `DBusObject.handle_msg`: property calls
go to `_handle_property_msg`, everything else to `_handle_method_call`. -/
def DBusObject.handle_try (o : DBusObject) (msg : PyMessage) :
    Except PyException (Option OutMessage) :=
  if msg.interface = some "org.freedesktop.DBus.Properties" then
    o.handle_property_msg msg
  else (o.handle_method_call msg).map some

/-- The send epilogue of `DBusObject.handle_msg`: a method-return or error
response is stamped with `destination = original sender` and
`sender = self.name` and transmitted (modelled as the `some` result); no
response, or a response of any other kind, sends nothing. -/
def DBusObject.send_response (o : DBusObject) (msg : PyMessage)
    (response : Option OutMessage) : Option OutMessage :=
  match response with
  | Option.none => Option.none
  | some resp =>
      if resp.messageType = MessageType.methodReturn
          ∨ resp.messageType = MessageType.error then
        some { resp with destination := some msg.sender, sender := o.name }
      else Option.none

/-- `DBusObject.handle_msg`: discards every message that is not a method
call; otherwise runs the dispatch under a single catch-all that converts a
raised exception into `self.new_error(msg, error)`, and finally applies the
send epilogue. The `.ok` result carries the transmitted message, if any; an
`.error` result is an exception escaping `handle_msg` itself (possible only
when `new_error` raises), which the listen loop would log. -/
def DBusObject.handle_msg (o : DBusObject) (msg : PyMessage) :
    Except PyException (Option OutMessage) :=
  if msg.messageType ≠ MessageType.methodCall then .ok Option.none
  else
    match o.handle_try msg with
    | .ok response => .ok (o.send_response msg response)
    | .error e =>
        match o.new_error msg (.exc e) Option.none "err" with
        | .ok response => .ok (o.send_response msg (some response))
        | .error e2 => .error e2

/-- A dispatcher in the state reached after `request_name` succeeded for the
bus name used by the test suite. -/
def exampleService : DBusObject :=
  ⟨some "com.example.object", ⟨Node.create ""⟩⟩

/-- The handler of the claimed scenario: a callable returning the pair of
signature `s` and body tuple `("Hello0",)`, as `partial(str_response,
body='Hello0')` does in the test suite. -/
def hello0 : Handler :=
  .user (fun args =>
    match args with
    | [] => .ok ("s", [Value.str "Hello0"])
    | _ => .error ⟨"TypeError", [.str "str_response() takes 1 positional argument"]⟩)

/-- The inbound method call of the claimed scenario: `/path`, member
`hello0`, no interface. -/
def helloCallMsg : PyMessage :=
  ⟨MessageType.methodCall, "/path", "hello0", Option.none, ":1.42", []⟩

/-- A hand-built dispatcher node instantiating the C4 scenario: an
interface stored under the `None` name that lacks the method `hello`, next
to an interface that contains it. -/
def exampleNoneNode : Node :=
  Node.mk ""
    [DBusInterface.mk Option.none [] [],
     DBusInterface.mk (some "com.example.interface1") [("hello", hello0)] []]
    []

/-- A dispatcher whose path tree is rooted at `exampleNoneNode`. -/
def exampleNoneService : DBusObject :=
  ⟨some "com.example.object", ⟨exampleNoneNode⟩⟩

/-- An exception whose args tuple consists of one string. -/
def errIsStringArg (e : PyException) : Prop :=
  ∃ m, e.args = [Value.str m]

/-- C9: every `DBusNode`, immediately after construction, has exactly the
two default interfaces (`org.freedesktop.DBus.Introspectable` and
`org.freedesktop.DBus.Properties`) as its interface table: the
post-initialisation step unconditionally replaces the `interfaces` mapping
with the defaults, so any mapping passed to the constructor is silently
discarded. -/
theorem dbus_node_construction_replaces_interfaces :
    ∀ (name : String) (interfaces : List (Option String × DBusInterface))
      (children : List DBusNode),
      (DBusNode.create name interfaces children).interfaces = DBusNode.default_interfaces
      ∧ DBusNode.default_interfaces.map Prod.fst =
          [some "org.freedesktop.DBus.Introspectable",
           some "org.freedesktop.DBus.Properties"] := by
  intro name ifs cs
  exact ⟨rfl, rfl⟩

/-- C3: setting an existing property whose access is `read` fails with
`PermissionError` carrying `[name]: Property not settable`; since the
rejection happens before either field assignment, the interface is left
untouched and reading the property still yields the original signature and
value. -/
theorem set_property_read_only_rejected :
    ∀ (i : DBusInterface) (prop_name signature : String) (value : Value)
      (prop : DBusProperty),
      dictGet? i.properties prop_name = some prop →
      prop.access = "read" →
      i.set_property prop_name signature value =
          .error ⟨"PermissionError", [.str (prop_name ++ ": Property not settable")]⟩
        ∧ i.get_property prop_name = .ok (prop.signature, prop.value) := by
  intro i pn sig v prop hget hacc
  constructor
  · simp [DBusInterface.set_property, hget, hacc]
  · simp [DBusInterface.get_property, hget]

/-- Witness for C3 at the inputs of the read-only property test. -/
theorem set_property_read_only_rejected_witness :
    (DBusInterface.mk (some "some.interface") []
        [("someprop",
          DBusProperty.mk "someprop" "s" (Value.tuple [Value.str "somevalue"]) "read")]).set_property
        "someprop" "s" (Value.str "anothervalue") =
      .error ⟨"PermissionError", [.str "someprop: Property not settable"]⟩
    ∧ (DBusInterface.mk (some "some.interface") []
        [("someprop",
          DBusProperty.mk "someprop" "s" (Value.tuple [Value.str "somevalue"]) "read")]).get_property
        "someprop" = .ok ("s", Value.tuple [Value.str "somevalue"]) :=
  set_property_read_only_rejected
    (DBusInterface.mk (some "some.interface") []
      [("someprop",
        DBusProperty.mk "someprop" "s" (Value.tuple [Value.str "somevalue"]) "read")])
    "someprop" "s" (Value.str "anothervalue")
    (DBusProperty.mk "someprop" "s" (Value.tuple [Value.str "somevalue"]) "read") rfl rfl

/-- C4 counterexample: a node carrying a `None`-named interface without the
member `hello` next to an interface that does contain it — the claimed
scenario — yet dispatching the no-interface call for `hello` returns
neither the sibling interface handler result nor the claimed MethodNotFound
error: the dispatcher raises `TypeError` at `self[path]` before any
resolution and replies with that error. -/
theorem none_sentinel_resolution_counterexample :
    exampleNoneService.handle_msg
        ⟨MessageType.methodCall, "/", "hello", Option.none, ":1.9", []⟩ =
      .ok (some ⟨MessageType.error, some "com.example.object.exceptions.TypeError",
        some "s", Value.tuple [Value.str "'DBusObject' object is not subscriptable"],
        some ":1.9", some "com.example.object"⟩)
    ∧ (exampleNoneNode.interfaces.get? 0).map
        (fun i => (i.name, dictGet? i.methods "hello")) =
      some (Option.none, Option.none)
    ∧ (exampleNoneNode.interfaces.get? 1).map (fun i => dictGet? i.methods "hello") =
      some (some hello0) := by
  exact ⟨rfl, rfl, rfl⟩

/-- C4 amended: when a method call's interface key is the none sentinel, no
handler resolution occurs at all — `_handle_method_call` raises
`TypeError` at `self[path]`, `DBusObject` having no `__getitem__`, before
any interface lookup — and the only handler lookup the code contains,
`DBusInterface.get_handler`, consults solely its own methods table, failing
with `KeyError("Unregistered method: [name]")` when the member is absent,
never searching other interfaces. -/
theorem get_handler_no_resolution_no_fallback :
    (∀ (o : DBusObject) (msg : PyMessage), msg.interface = Option.none →
      o.handle_method_call msg =
        .error ⟨"TypeError", [.str "'DBusObject' object is not subscriptable"]⟩)
    ∧ (∀ (i : DBusInterface) (method_name : String),
        dictGet? i.methods method_name = Option.none →
        i.get_handler method_name =
          .error ⟨"KeyError", [.str ("Unregistered method: '" ++ method_name ++ "'")]⟩) := by
  constructor
  · intro o msg _
    rfl
  · intro i m h
    simp [DBusInterface.get_handler, h]

/-- Witness for the amended C4 statement at the counterexample inputs. -/
theorem get_handler_no_resolution_no_fallback_witness :
    exampleNoneService.handle_method_call
        ⟨MessageType.methodCall, "/", "hello", Option.none, ":1.9", []⟩ =
      .error ⟨"TypeError", [.str "'DBusObject' object is not subscriptable"]⟩
    ∧ (DBusInterface.mk Option.none [] []).get_handler "hello" =
        .error ⟨"KeyError", [.str ("Unregistered method: '" ++ "hello" ++ "'")]⟩ :=
  ⟨get_handler_no_resolution_no_fallback.1 exampleNoneService
      ⟨MessageType.methodCall, "/", "hello", Option.none, ":1.9", []⟩ rfl,
   get_handler_no_resolution_no_fallback.2 (DBusInterface.mk Option.none [] []) "hello" rfl⟩

/-- C8: an inbound message of any kind other than method-call is discarded
without an outbound reply. -/
theorem handle_msg_ignores_non_method_calls :
    ∀ (o : DBusObject) (msg : PyMessage),
      msg.messageType ≠ MessageType.methodCall →
      o.handle_msg msg = .ok Option.none := by
  intro o msg h
  simp [DBusObject.handle_msg, h]

/-- Witness for C8 on a concrete signal message. -/
theorem handle_msg_ignores_non_method_calls_witness :
    DBusObject.init.handle_msg
      ⟨MessageType.signal, "/", "Ping", Option.none, ":1.1", []⟩ = .ok Option.none :=
  handle_msg_ignores_non_method_calls _ _ (by decide)

/-- C10: `new_error` given an exception body reads `args[0]` unguarded: for
every exception with a non-empty args tuple the conversion succeeds, and
for every exception with an empty args tuple the conversion itself raises
`IndexError` instead of producing an error reply. -/
theorem new_error_exception_body_args :
    ∀ (o : DBusObject) (parent : PyMessage) (e : PyException)
      (signature : Option String) (error_name : String),
      (e.args = [] →
        o.new_error parent (.exc e) signature error_name =
          .error ⟨"IndexError", [.str "tuple index out of range"]⟩)
      ∧ (e.args ≠ [] →
        ∃ r, o.new_error parent (.exc e) signature error_name = .ok r) := by
  intro o p e sig en
  constructor
  · intro h
    simp only [DBusObject.new_error, h]
    rfl
  · intro h
    match he : e.args with
    | [] => exact absurd he h
    | a :: rest =>
        cases a <;> exact ⟨_, by simp only [DBusObject.new_error, he]; rfl⟩

/-- Witness for C10: both branches at concrete exceptions. -/
theorem new_error_exception_body_args_witness :
    (∃ r, DBusObject.init.new_error helloCallMsg
        (.exc ⟨"KeyError", [Value.str "boom"]⟩) Option.none "err" = .ok r)
    ∧ DBusObject.init.new_error helloCallMsg
        (.exc ⟨"RuntimeError", []⟩) Option.none "err" =
      .error ⟨"IndexError", [.str "tuple index out of range"]⟩ :=
  ⟨(new_error_exception_body_args DBusObject.init helloCallMsg
      ⟨"KeyError", [Value.str "boom"]⟩ Option.none "err").2 (by simp),
   (new_error_exception_body_args DBusObject.init helloCallMsg
      ⟨"RuntimeError", []⟩ Option.none "err").1 rfl⟩

/-- C1: the claimed register-then-dispatch scenario is impossible on this
code. Registering `hello0` at `/path` raises
`KeyError("Path /path not found?")` because `self.paths[path]` resolves
through `PathAccessor.get_node`, which never creates missing nodes (and
even on an existing node the dict-style assignment into the list-typed
`node.interfaces` would raise `TypeError`); dispatching the method call
yields the error reply `com.example.object.exceptions.TypeError` with body
`("'DBusObject' object is not subscriptable",)`, raised at the `self[path]`
subscript in `_handle_method_call` since `DBusObject` has no `__getitem__`
— never a method-return with body `("Hello0",)`. The repository test
`test_object_method_call` expects the claimed behaviour, so the code
contradicts its own test suite. -/
theorem set_handler_hello0_scenario_fails :
    exampleService.set_handler "/path" Option.none "hello0" hello0 =
      .error ⟨"KeyError", [.str "Path /path not found?"]⟩
    ∧ exampleService.handle_msg helloCallMsg =
        .ok (some ⟨MessageType.error, some "com.example.object.exceptions.TypeError",
          some "s", Value.tuple [Value.str "'DBusObject' object is not subscriptable"],
          some ":1.42", some "com.example.object"⟩) := by
  exact ⟨rfl, rfl⟩

/-- Storing under a key that is absent appends the new entry at the end of
the insertion-ordered dict. -/
theorem dictSet_of_not_found {κ β : Type} [DecidableEq κ]
    (l : List (κ × β)) (k : κ) (v : β) (h : dictGet? l k = Option.none) :
    dictSet l k v = l ++ [(k, v)] := by
  induction l with
  | nil => rfl
  | cons kv rest ih =>
      by_cases hk : kv.1 = k
      · simp [dictGet?, hk] at h
      · simp only [dictGet?, hk, if_neg, ite_false] at h
        simp [dictSet, hk, ih h]

/-- C7: `get_all_properties` lists the `(name, (signature, value))` pairs of
the interface properties in insertion order: `set_property` appends a newly
created property at the end of the table, and after setting `prop0`,
`prop1`, `prop2` (all signature `s`) in that order, `get_all_properties`
returns exactly that ordered sequence, wrapped in the one-element tuple the
source builds. -/
theorem get_all_properties_insertion_order :
    (∀ (i : DBusInterface) (prop_name signature : String) (value : Value),
      dictGet? i.properties prop_name = Option.none →
      i.set_property prop_name signature value =
        .ok { i with properties :=
          i.properties ++ [(prop_name, DBusProperty.mk prop_name signature value "readwrite")] })
    ∧ (((((DBusInterface.mk (some "com.example.interface1") [] []).set_property
            "prop0" "s" (Value.str "hello0")).bind (fun i =>
          i.set_property "prop1" "s" (Value.str "hello1"))).bind (fun i =>
          i.set_property "prop2" "s" (Value.str "hello2"))).map (fun i =>
          i.get_all_properties)) =
      .ok (Value.tuple [Value.list
        [Value.tuple [Value.str "prop0", Value.tuple [Value.str "s", Value.str "hello0"]],
         Value.tuple [Value.str "prop1", Value.tuple [Value.str "s", Value.str "hello1"]],
         Value.tuple [Value.str "prop2", Value.tuple [Value.str "s", Value.str "hello2"]]]]) := by
  constructor
  · intro i pn sig v h
    simp [DBusInterface.set_property, h, dictSet_of_not_found _ _ _ h, DBusProperty.create]
  · rfl

/-- Witness for the universally quantified part of C7. -/
theorem get_all_properties_insertion_order_witness :
    (DBusInterface.mk (some "com.example.interface1") [] []).set_property
        "prop0" "s" (Value.str "hello0") =
      .ok (DBusInterface.mk (some "com.example.interface1") []
        [("prop0", DBusProperty.mk "prop0" "s" (Value.str "hello0") "readwrite")]) :=
  get_all_properties_insertion_order.1 _ "prop0" "s" (Value.str "hello0") rfl

/-- C6: a node with at least one child whose interface keys all lie in the
fixed default set produces an introspection element containing only
name-only child stubs; but for a node with no children (or any custom
interface) the code does not include the interface bodies as claimed: it
raises `AttributeError`, because `DBusNode.to_xml` calls `iface.to_xml()`
and `DBusInterface` defines no such method (`DBusProperty.to_xml` and
`DBusMethod.to_xml` exist precisely to build those bodies, so the claim
matches the evident intent and the code is the slip). -/
theorem to_xml_suppression_rule :
    (∀ t : DBusNode, t.children ≠ [] → t.has_custom_interfaces = false →
      t.to_xml = .ok (Xml.elem "node" []
        (t.children.map (fun c => Xml.elem "node" [("name", c.name)] []))))
    ∧ (DBusNode.create "x").to_xml =
        .error ⟨"AttributeError", [.str "'DBusInterface' object has no attribute 'to_xml'"]⟩ := by
  constructor
  · intro t hc hcust
    have hemp : t.children.isEmpty = false := by
      cases hch : t.children with
      | nil => exact absurd hch hc
      | cons a l => rfl
    simp only [DBusNode.to_xml, hemp, hcust, Bool.or_self, if_neg, Bool.false_eq_true,
      not_false_eq_true]
    rfl
  · rfl

/-- Witness for the suppression half of C6. -/
theorem to_xml_suppression_rule_witness :
    (DBusNode.mk "parent" DBusNode.default_interfaces [DBusNode.create "kid"]).to_xml =
      .ok (Xml.elem "node" [] [Xml.elem "node" [("name", "kid")] []]) :=
  to_xml_suppression_rule.1
    (DBusNode.mk "parent" DBusNode.default_interfaces [DBusNode.create "kid"])
    (List.cons_ne_nil _ _) rfl

/-- Case split for a failing bind in the exception monad. -/
theorem exceptBind_eq_error {α β : Type} {x : Except PyException α}
    {f : α → Except PyException β} {e : PyException}
    (h : x >>= f = .error e) :
    x = .error e ∨ ∃ a, x = .ok a ∧ f a = .error e := by
  cases x with
  | error e2 =>
      have hb : (Except.error e2 : Except PyException α) >>= f = Except.error e2 := rfl
      rw [hb] at h
      injection h with h1
      exact Or.inl (by rw [h1])
  | ok a =>
      have hb : (Except.ok a : Except PyException α) >>= f = f a := rfl
      rw [hb] at h
      exact Or.inr ⟨a, rfl, h⟩

/-- A raised error that is literally built with a single string argument
satisfies `errIsStringArg`. -/
theorem error_with_string_arg {α : Type} {e : PyException} {k m : String}
    (h : (Except.error ⟨k, [Value.str m]⟩ : Except PyException α) = Except.error e) :
    errIsStringArg e := by
  injection h with h1
  exact ⟨m, by rw [← h1]⟩

/-- Every failure of `pyPop0` carries one string argument. -/
theorem pyPop0_error_shape {l : List Value} {e : PyException}
    (h : pyPop0 l = .error e) : errIsStringArg e := by
  cases l with
  | nil => exact error_with_string_arg h
  | cons x xs => exact Except.noConfusion h

/-- Every failure of `pyGetItem0` carries one string argument. -/
theorem pyGetItem0_error_shape {l : List Value} {e : PyException}
    (h : pyGetItem0 l = .error e) : errIsStringArg e := by
  cases l with
  | nil => exact error_with_string_arg h
  | cons x xs => exact Except.noConfusion h

/-- Every failure of a string-subscripted list access carries one string
argument. -/
theorem pyListGetItemStrKey_error_shape {α : Type} {l : List α}
    {k : Option String} {e : PyException}
    (h : pyListGetItemStrKey l k = .error e) : errIsStringArg e := by
  cases k with
  | none => exact error_with_string_arg h
  | some s => exact error_with_string_arg h

/-- Every failure of a value-subscripted list access carries one string
argument. -/
theorem pyListGetItemValue_error_shape {α : Type} {l : List α}
    {v : Value} {e : PyException}
    (h : pyListGetItemValue l v = .error e) : errIsStringArg e := by
  cases v with
  | int i =>
      simp only [pyListGetItemValue] at h
      split at h <;> split at h <;>
        first
          | exact Except.noConfusion h
          | exact error_with_string_arg h
  | str s => exact error_with_string_arg h
  | none => exact error_with_string_arg h
  | tuple vs => exact error_with_string_arg h
  | list vs => exact error_with_string_arg h

/-- Every failure of `get_property` carries one string argument. -/
theorem get_property_error_shape {i : DBusInterface} {pn : String} {e : PyException}
    (h : i.get_property pn = .error e) : errIsStringArg e := by
  unfold DBusInterface.get_property at h
  split at h
  · exact error_with_string_arg h
  · exact Except.noConfusion h

/-- Every failure of the raw-name property read carries one string
argument. -/
theorem ifaceGetPropertyRaw_error_shape {i : DBusInterface} {v : Value} {e : PyException}
    (h : ifaceGetPropertyRaw i v = .error e) : errIsStringArg e := by
  cases v with
  | str s => exact get_property_error_shape h
  | int x => exact error_with_string_arg h
  | none => exact error_with_string_arg h
  | tuple vs => exact error_with_string_arg h
  | list vs => exact error_with_string_arg h

/-- Every failure of `set_property` carries one string argument. -/
theorem set_property_error_shape {i : DBusInterface} {pn sig : String}
    {v : Value} {e : PyException}
    (h : i.set_property pn sig v = .error e) : errIsStringArg e := by
  simp only [DBusInterface.set_property] at h
  split at h
  · split at h
    · exact error_with_string_arg h
    · exact Except.noConfusion h
  · exact Except.noConfusion h

/-- Every failure of the component walk in `get_node` carries one string
argument. -/
theorem foldlM_path_walk_error {parts : List String} {node : Node}
    {path : String} {e : PyException}
    (h : parts.foldlM (fun node part =>
        (match Node.findChild node.children part with
          | some c => Except.ok c
          | Option.none =>
              Except.error ⟨"KeyError", [Value.str ("Path " ++ path ++ " not found?")]⟩
          : Except PyException Node)) node
      = .error e) :
    errIsStringArg e := by
  induction parts generalizing node with
  | nil => exact Except.noConfusion h
  | cons p ps ih =>
      rw [List.foldlM_cons] at h
      rcases exceptBind_eq_error h with h1 | ⟨a, ha, h2⟩
      · cases hf : Node.findChild node.children p with
        | none => rw [hf] at h1; exact error_with_string_arg h1
        | some c => rw [hf] at h1; exact Except.noConfusion h1
      · exact ih h2

/-- Every failure of `get_node` carries one string argument. -/
theorem get_node_error_shape {pa : PathAccessor} {path : String} {e : PyException}
    (h : pa.get_node path = .error e) : errIsStringArg e := by
  unfold PathAccessor.get_node at h
  split at h
  · exact Except.noConfusion h
  · exact foldlM_path_walk_error h

/-- Every failure of `_handle_method_call` carries one string argument:
the only failure it can raise is the not-subscriptable `TypeError` at
`self[path]`. -/
theorem handle_method_call_error_shape {o : DBusObject} {msg : PyMessage} {e : PyException}
    (h : o.handle_method_call msg = .error e) : errIsStringArg e := by
  unfold DBusObject.handle_method_call at h
  rcases exceptBind_eq_error h with h1 | ⟨node, hn, h2⟩
  · simp only [pyObjectGetItem] at h1
    exact error_with_string_arg h1
  · simp only [pyObjectGetItem] at hn
    exact Except.noConfusion hn

/-- Every failure of `_handle_property_msg` carries one string argument:
it can raise only the pop IndexError on an empty body or the
not-subscriptable `TypeError` at `self[path]`; everything after the
subscript is dead code. -/
theorem handle_property_msg_error_shape {o : DBusObject} {msg : PyMessage} {e : PyException}
    (h : o.handle_property_msg msg = .error e) : errIsStringArg e := by
  simp only [DBusObject.handle_property_msg] at h
  rcases exceptBind_eq_error h with h1 | ⟨popped, hp, h2⟩
  · exact pyPop0_error_shape h1
  · rcases exceptBind_eq_error h2 with h3 | ⟨node, hn, h4⟩
    · simp only [pyObjectGetItem] at h3
      exact error_with_string_arg h3
    · simp only [pyObjectGetItem] at hn
      exact Except.noConfusion hn

/-- Every failure the try block of `handle_msg` raises carries one string
argument. -/
theorem handle_try_error_shape {o : DBusObject} {msg : PyMessage} {e : PyException}
    (h : o.handle_try msg = .error e) : errIsStringArg e := by
  unfold DBusObject.handle_try at h
  split at h
  · exact handle_property_msg_error_shape h
  · cases hm : o.handle_method_call msg with
    | ok v => rw [hm] at h; exact Except.noConfusion h
    | error e2 =>
        rw [hm] at h
        have h1 : e2 = e := Except.error.inj h
        exact handle_method_call_error_shape (h1 ▸ hm)

/-- C5: every failure raised while dispatching a method call is caught once
at the top of `handle_msg` and converted into a single error reply whose
symbolic name is the failure kind, namespaced as
`[bus].exceptions.[kind]` when the kind contains no dot, and whose body is
the failure message as a single string with signature `s` — every failure
the dispatch code can raise carries exactly one string argument (its
message). The second conjunct covers the messageless branch of the
conversion: a failure whose first argument is `None` is converted to a
reply with an empty body and no signature. -/
theorem handle_msg_converts_failures :
    (∀ (o : DBusObject) (msg : PyMessage) (bus : String) (e : PyException),
      o.name = some bus →
      msg.messageType = MessageType.methodCall →
      o.handle_try msg = .error e →
      ∃ m, e.args = [Value.str m] ∧
        o.handle_msg msg = .ok (some ⟨MessageType.error,
          some (if e.kind.toList.contains '.' then e.kind
                else bus ++ ".exceptions." ++ e.kind),
          some "s", Value.tuple [Value.str m], some msg.sender, some bus⟩))
    ∧ (∀ (o : DBusObject) (parent : PyMessage) (e : PyException)
        (signature : Option String) (error_name : String) (rest : List Value),
        e.args = Value.none :: rest →
        o.new_error parent (.exc e) signature error_name =
          .ok (jeepneyNewError parent
            (if e.kind.toList.contains '.' then e.kind
             else pyStrOfOptName o.name ++ ".exceptions." ++ e.kind)
            Option.none (Value.tuple []))) := by
  constructor
  · intro o msg bus e hname hmt htry
    obtain ⟨m, hm⟩ := handle_try_error_shape htry
    refine ⟨m, hm, ?_⟩
    have hne : o.new_error msg (.exc e) Option.none "err" =
        .ok (jeepneyNewError msg
          (if e.kind.toList.contains '.' then e.kind
           else pyStrOfOptName o.name ++ ".exceptions." ++ e.kind)
          (some "s") (Value.tuple [Value.str m])) := by
      simp only [DBusObject.new_error, hm]
      rfl
    simp only [DBusObject.handle_msg, hmt, ne_eq, not_true_eq_false, if_false, htry, hne,
      DBusObject.send_response, jeepneyNewError, hname, pyStrOfOptName]
    rfl
  · intro o parent e sig en rest h
    simp only [DBusObject.new_error, h]
    rfl

/-- Witness for C5 at a concrete failing method call: the dispatch raises
the unconditional not-subscriptable `TypeError`, which is converted and
sent back. -/
theorem handle_msg_converts_failures_witness :
    ∃ m, (⟨"TypeError",
        [Value.str "'DBusObject' object is not subscriptable"]⟩ : PyException).args
        = [Value.str m] ∧
      exampleService.handle_msg
        ⟨MessageType.methodCall, "/nope", "some_method", Option.none, ":1.7", []⟩ =
      .ok (some ⟨MessageType.error,
        some (if ("TypeError" : String).toList.contains '.' then "TypeError"
              else "com.example.object" ++ ".exceptions." ++ "TypeError"),
        some "s", Value.tuple [Value.str m],
        some ":1.7", some "com.example.object"⟩) :=
  handle_msg_converts_failures.1 exampleService
    ⟨MessageType.methodCall, "/nope", "some_method", Option.none, ":1.7", []⟩
    "com.example.object" ⟨"TypeError", [Value.str "'DBusObject' object is not subscriptable"]⟩
    rfl rfl rfl

/-- Stripping never lengthens a character list. -/
theorem pyStripChar_length_le (c : Char) (s : List Char) :
    (pyStripChar c s).length ≤ s.length := by
  unfold pyStripChar
  calc (((s.dropWhile (fun x => x = c)).reverse.dropWhile
          (fun x => x = c)).reverse).length
      = ((s.dropWhile (fun x => x = c)).reverse.dropWhile
          (fun x => x = c)).length := List.length_reverse _
    _ ≤ (s.dropWhile (fun x => x = c)).reverse.length :=
        (List.dropWhile_sublist _).length_le
    _ = (s.dropWhile (fun x => x = c)).length := List.length_reverse _
    _ ≤ s.length := (List.dropWhile_sublist _).length_le

/-- When the partition produces a non-empty first segment, the remainder is
strictly shorter than the input. -/
theorem pyPartitionChar_rest_lt (c : Char) (s : List Char)
    (h : (pyPartitionChar c s).1 ≠ []) :
    (pyPartitionChar c s).2.length < s.length := by
  have hs : s ≠ [] := by
    intro hnil
    subst hnil
    exact h rfl
  show ((s.dropWhile (fun x => x ≠ c)).tail).length < s.length
  cases hd : s.dropWhile (fun x => x ≠ c) with
  | nil =>
      simpa using List.length_pos.mpr hs
  | cons x xs =>
      have h1 : (x :: xs).length ≤ s.length := by
        rw [← hd]
        exact (List.dropWhile_sublist _).length_le
      simp only [List.tail_cons]
      exact Nat.lt_of_lt_of_le (by simp) h1

/-- Projection of `setChild` on the name. -/
theorem DBusNode.name_setChild (t c : DBusNode) (i : Nat) :
    (t.setChild i c).name = t.name := by
  cases t
  rfl

/-- Projection of `appendChild` on the name. -/
theorem DBusNode.name_appendChild (t c : DBusNode) :
    (t.appendChild c).name = t.name := by
  cases t
  rfl

/-- Projection of `setChild` on the children. -/
theorem DBusNode.children_setChild (t c : DBusNode) (i : Nat) :
    (t.setChild i c).children = t.children.set i c := by
  cases t
  rfl

/-- Projection of `appendChild` on the children. -/
theorem DBusNode.children_appendChild (t c : DBusNode) :
    (t.appendChild c).children = t.children ++ [c] := by
  cases t
  rfl

/-- The first node of a fresh chain carries the first segment name. -/
theorem freshChain_name (s : String) (l : List String) :
    (freshChain s l).name = s := by
  cases l with
  | nil => rfl
  | cons r rest => rfl

/-- Grafting a fresh chain never changes the name of the updated root. -/
theorem NewChain.name_eq {t t2 : DBusNode} {addr : List Nat}
    (h : NewChain t t2 addr) : t2.name = t.name := by
  cases h with
  | graft t s rest => exact DBusNode.name_appendChild _ _
  | deeper t child c2 addr i hg hc => exact DBusNode.name_setChild _ _ _

/-- A successful child scan returns an in-range position holding a child
with the requested name. -/
theorem findChild_spec {l : List DBusNode} {s : String} {i : Nat} {c : DBusNode}
    (h : DBusNode.findChild l s = some (i, c)) :
    l.get? i = some c ∧ c.name = s := by
  induction l generalizing i with
  | nil => exact Option.noConfusion h
  | cons a rest ih =>
      by_cases ha : a.name = s
      · simp only [DBusNode.findChild, if_pos ha, Option.some.injEq, Prod.mk.injEq] at h
        obtain ⟨hi, hc⟩ := h
        subst hi
        subst hc
        exact ⟨rfl, ha⟩
      · simp only [DBusNode.findChild, if_neg ha] at h
        cases hf : DBusNode.findChild rest s with
        | none =>
            simp only [hf] at h
            exact Option.noConfusion h
        | some p =>
            obtain ⟨j, d⟩ := p
            simp only [hf, Option.some.injEq, Prod.mk.injEq] at h
            obtain ⟨hi, hc⟩ := h
            subst hi
            subst hc
            obtain ⟨hg, hn⟩ := ih hf
            exact ⟨by simpa using hg, hn⟩

/-- Replacing the found child with one of the same name leaves the scan
finding the replacement at the same position. -/
theorem findChild_set {l : List DBusNode} {s : String} {i : Nat} {c c2 : DBusNode}
    (h : DBusNode.findChild l s = some (i, c)) (hname : c2.name = c.name) :
    DBusNode.findChild (l.set i c2) s = some (i, c2) := by
  induction l generalizing i with
  | nil => exact Option.noConfusion h
  | cons a rest ih =>
      by_cases ha : a.name = s
      · simp only [DBusNode.findChild, if_pos ha, Option.some.injEq, Prod.mk.injEq] at h
        obtain ⟨hi, hc⟩ := h
        subst hi
        subst hc
        simp only [List.set]
        have : c2.name = s := by rw [hname, ha]
        simp [DBusNode.findChild, this]
      · simp only [DBusNode.findChild, if_neg ha] at h
        cases hf : DBusNode.findChild rest s with
        | none =>
            simp only [hf] at h
            exact Option.noConfusion h
        | some p =>
            obtain ⟨j, d⟩ := p
            simp only [hf, Option.some.injEq, Prod.mk.injEq] at h
            obtain ⟨hi, hc⟩ := h
            subst hi
            subst hc
            simp only [List.set, DBusNode.findChild, if_neg ha, ih hf]

/-- Appending a child with the sought name to a list with no match makes
the scan find it at the end. -/
theorem findChild_append_none {l : List DBusNode} {s : String}
    (h : DBusNode.findChild l s = Option.none) {c : DBusNode} (hc : c.name = s) :
    DBusNode.findChild (l ++ [c]) s = some (l.length, c) := by
  induction l with
  | nil => simp [DBusNode.findChild, hc]
  | cons a rest ih =>
      by_cases ha : a.name = s
      · simp [DBusNode.findChild, ha] at h
      · simp only [DBusNode.findChild, if_neg ha] at h
        cases hf : DBusNode.findChild rest s with
        | some p =>
            simp only [hf] at h
            exact Option.noConfusion h
        | none =>
            rw [List.cons_append]
            simp only [DBusNode.findChild, if_neg ha, ih hf]
            simp

/-- Overwriting the appended last element of a list. -/
theorem setAppendLength {α : Type} (l : List α) (c c2 : α) :
    (l ++ [c]).set l.length c2 = l ++ [c2] := by
  induction l with
  | nil => rfl
  | cons a rest ih => simp [List.set, ih]

/-- Unfolding of `get_path` when the stripped path has no first segment. -/
theorem get_path_eq_done (t : DBusNode) (path : List Char) (ensure : Bool)
    (h : (pyPartitionChar '/' (pyStripChar '/' path)).1 = []) :
    t.get_path path ensure = .ok (t, []) := by
  rw [DBusNode.get_path.eq_def]
  simp [h]

/-- Unfolding of `get_path` when the first segment matches a child. -/
theorem get_path_eq_found (t : DBusNode) (path : List Char) (ensure : Bool)
    (i : Nat) (child : DBusNode)
    (h : (pyPartitionChar '/' (pyStripChar '/' path)).1 ≠ [])
    (hf : DBusNode.findChild t.children
        (String.mk (pyPartitionChar '/' (pyStripChar '/' path)).1) = some (i, child)) :
    t.get_path path ensure =
      (match child.get_path (pyPartitionChar '/' (pyStripChar '/' path)).2 ensure with
       | .ok (child2, addr) => .ok (t.setChild i child2, i :: addr)
       | .error e => .error e) := by
  rw [DBusNode.get_path.eq_def]
  simp [h, hf]

/-- Unfolding of a non-creating `get_path` when the first segment has no
matching child: the walk raises the path KeyError. -/
theorem get_path_eq_missing_false (t : DBusNode) (path : List Char)
    (h : (pyPartitionChar '/' (pyStripChar '/' path)).1 ≠ [])
    (hf : DBusNode.findChild t.children
        (String.mk (pyPartitionChar '/' (pyStripChar '/' path)).1) = Option.none) :
    t.get_path path false = .error ⟨"KeyError", [Value.str "Path doesn't exist"]⟩ := by
  rw [DBusNode.get_path.eq_def]
  simp [h, hf]

/-- Unfolding of a creating `get_path` when the first segment has no
matching child: a fresh node is created and appended, and the walk
continues from it. -/
theorem get_path_eq_missing_true (t : DBusNode) (path : List Char)
    (h : (pyPartitionChar '/' (pyStripChar '/' path)).1 ≠ [])
    (hf : DBusNode.findChild t.children
        (String.mk (pyPartitionChar '/' (pyStripChar '/' path)).1) = Option.none) :
    t.get_path path true =
      (match (DBusNode.create
            (String.mk (pyPartitionChar '/' (pyStripChar '/' path)).1)).get_path
          (pyPartitionChar '/' (pyStripChar '/' path)).2 true with
       | .ok (new2, addr) => .ok (t.appendChild new2, t.children.length :: addr)
       | .error e => .error e) := by
  rw [DBusNode.get_path.eq_def]
  simp [h, hf]

/-- A creating walk from a freshly created node builds exactly a fresh
default-interface chain, and re-resolving the same path without creation
returns the chain unchanged at the same address. -/
theorem get_path_fresh : ∀ (n : Nat) (path : List Char), path.length ≤ n →
    ∀ (name : String), ∃ segs : List String,
      (DBusNode.create name).get_path path true = .ok (freshChain name segs, chainAddr segs)
      ∧ (freshChain name segs).get_path path false =
          .ok (freshChain name segs, chainAddr segs) := by
  intro n
  induction n with
  | zero =>
      intro path hlen name
      have hp : path = [] := List.length_eq_zero.mp (Nat.le_zero.mp hlen)
      subst hp
      exact ⟨[], get_path_eq_done _ _ _ rfl, get_path_eq_done _ _ _ rfl⟩
  | succ k ih =>
      intro path hlen name
      by_cases hroot : (pyPartitionChar '/' (pyStripChar '/' path)).1 = []
      · exact ⟨[], get_path_eq_done _ _ _ hroot, get_path_eq_done _ _ _ hroot⟩
      · have hrest : (pyPartitionChar '/' (pyStripChar '/' path)).2.length ≤ k := by
          have h1 : (pyPartitionChar '/' (pyStripChar '/' path)).2.length
              < (pyStripChar '/' path).length := pyPartitionChar_rest_lt _ _ hroot
          have h2 : (pyStripChar '/' path).length ≤ path.length :=
            pyStripChar_length_le _ _
          omega
        obtain ⟨segs, h1, h2⟩ :=
          ih _ hrest (String.mk (pyPartitionChar '/' (pyStripChar '/' path)).1)
        refine ⟨String.mk (pyPartitionChar '/' (pyStripChar '/' path)).1 :: segs, ?_, ?_⟩
        · have hf : DBusNode.findChild (DBusNode.create name).children
              (String.mk (pyPartitionChar '/' (pyStripChar '/' path)).1) = Option.none := rfl
          rw [get_path_eq_missing_true _ _ hroot hf, h1]
          rfl
        · have hname2 : (freshChain
              (String.mk (pyPartitionChar '/' (pyStripChar '/' path)).1) segs).name
              = String.mk (pyPartitionChar '/' (pyStripChar '/' path)).1 :=
            freshChain_name _ _
          have hf2 : DBusNode.findChild
              (freshChain name
                (String.mk (pyPartitionChar '/' (pyStripChar '/' path)).1 :: segs)).children
              (String.mk (pyPartitionChar '/' (pyStripChar '/' path)).1)
              = some (0, freshChain
                  (String.mk (pyPartitionChar '/' (pyStripChar '/' path)).1) segs) := by
            show DBusNode.findChild
              [freshChain (String.mk (pyPartitionChar '/' (pyStripChar '/' path)).1) segs]
              (String.mk (pyPartitionChar '/' (pyStripChar '/' path)).1) = _
            simp [DBusNode.findChild, hname2]
          rw [get_path_eq_found _ _ _ 0 _ hroot hf2, h2]
          rfl

/-- Main induction for C2: a failing non-creating walk carries the
`KeyError("Path doesn't exist")`, the creating walk on the same path
succeeds by grafting a fresh default-interface chain, and re-resolving
without creation returns the identical tree and address. -/
theorem get_path_create_main : ∀ (n : Nat) (path : List Char), path.length ≤ n →
    ∀ (t : DBusNode) (e : PyException),
      t.get_path path false = .error e →
      e = ⟨"KeyError", [Value.str "Path doesn't exist"]⟩ ∧
      ∃ t2 addr, t.get_path path true = .ok (t2, addr) ∧
        t2.get_path path false = .ok (t2, addr) ∧ NewChain t t2 addr := by
  intro n
  induction n with
  | zero =>
      intro path hlen t e herr
      have hp : path = [] := List.length_eq_zero.mp (Nat.le_zero.mp hlen)
      subst hp
      rw [get_path_eq_done t [] false rfl] at herr
      exact Except.noConfusion herr
  | succ k ih =>
      intro path hlen t e herr
      by_cases hroot : (pyPartitionChar '/' (pyStripChar '/' path)).1 = []
      · rw [get_path_eq_done _ _ _ hroot] at herr
        exact Except.noConfusion herr
      · have hrest : (pyPartitionChar '/' (pyStripChar '/' path)).2.length ≤ k := by
          have h1 : (pyPartitionChar '/' (pyStripChar '/' path)).2.length
              < (pyStripChar '/' path).length := pyPartitionChar_rest_lt _ _ hroot
          have h2 : (pyStripChar '/' path).length ≤ path.length :=
            pyStripChar_length_le _ _
          omega
        cases hf : DBusNode.findChild t.children
            (String.mk (pyPartitionChar '/' (pyStripChar '/' path)).1) with
        | some p =>
            obtain ⟨i, child⟩ := p
            rw [get_path_eq_found _ _ _ i child hroot hf] at herr
            cases hc : child.get_path (pyPartitionChar '/' (pyStripChar '/' path)).2 false with
            | ok v =>
                obtain ⟨c2', addr'⟩ := v
                simp only [hc] at herr
                exact Except.noConfusion herr
            | error e2 =>
                simp only [hc] at herr
                have he : e2 = e := Except.error.inj herr
                subst he
                obtain ⟨heq, t2c, addr2, hc1, hc2, hnc⟩ := ih _ hrest child e2 hc
                refine ⟨heq, t.setChild i t2c, i :: addr2, ?_, ?_, ?_⟩
                · rw [get_path_eq_found _ _ _ i child hroot hf, hc1]
                · have hname2 : t2c.name = child.name := hnc.name_eq
                  have hf2 : DBusNode.findChild (t.setChild i t2c).children
                      (String.mk (pyPartitionChar '/' (pyStripChar '/' path)).1)
                      = some (i, t2c) := by
                    rw [DBusNode.children_setChild]
                    exact findChild_set hf hname2
                  rw [get_path_eq_found _ _ _ i t2c hroot hf2, hc2]
                  show Except.ok ((t.setChild i t2c).setChild i t2c, i :: addr2)
                      = Except.ok (t.setChild i t2c, i :: addr2)
                  have hset : (t.setChild i t2c).setChild i t2c = t.setChild i t2c := by
                    cases t
                    simp [DBusNode.setChild, List.set_set]
                  rw [hset]
                · exact NewChain.deeper t child t2c addr2 i (findChild_spec hf).1 hnc
        | none =>
            rw [get_path_eq_missing_false _ _ hroot hf] at herr
            have he : e = ⟨"KeyError", [Value.str "Path doesn't exist"]⟩ :=
              (Except.error.inj herr).symm
            obtain ⟨segs, h1, h2⟩ := get_path_fresh k _ hrest
              (String.mk (pyPartitionChar '/' (pyStripChar '/' path)).1)
            refine ⟨he,
              t.appendChild (freshChain
                (String.mk (pyPartitionChar '/' (pyStripChar '/' path)).1) segs),
              t.children.length :: chainAddr segs, ?_, ?_, ?_⟩
            · rw [get_path_eq_missing_true _ _ hroot hf, h1]
            · have hf2 : DBusNode.findChild
                  (t.appendChild (freshChain
                    (String.mk (pyPartitionChar '/' (pyStripChar '/' path)).1) segs)).children
                  (String.mk (pyPartitionChar '/' (pyStripChar '/' path)).1)
                  = some (t.children.length, freshChain
                      (String.mk (pyPartitionChar '/' (pyStripChar '/' path)).1) segs) := by
                rw [DBusNode.children_appendChild]
                exact findChild_append_none hf (freshChain_name _ _)
              rw [get_path_eq_found _ _ _ t.children.length _ hroot hf2, h2]
              show Except.ok
                  ((t.appendChild (freshChain
                    (String.mk (pyPartitionChar '/' (pyStripChar '/' path)).1) segs)).setChild
                    t.children.length
                    (freshChain
                      (String.mk (pyPartitionChar '/' (pyStripChar '/' path)).1) segs),
                    t.children.length :: chainAddr segs)
                  = _
              have hset : (t.appendChild (freshChain
                    (String.mk (pyPartitionChar '/' (pyStripChar '/' path)).1) segs)).setChild
                    t.children.length
                    (freshChain (String.mk (pyPartitionChar '/' (pyStripChar '/' path)).1) segs)
                  = t.appendChild (freshChain
                    (String.mk (pyPartitionChar '/' (pyStripChar '/' path)).1) segs) := by
                cases t
                simp [DBusNode.setChild, DBusNode.appendChild, DBusNode.children, setAppendLength]
              rw [hset]
            · exact NewChain.graft t _ segs

/-- C2: for every path not present in the tree (absence meaning exactly
that the non-creating walk fails), resolving with `ensure = false` raises
`KeyError("Path doesn't exist")`, resolving with `ensure = true` succeeds
by grafting a chain of freshly created nodes — one per missing segment,
each appended at the end of the children list of its parent and carrying
the freshly attached default interfaces (the content of `NewChain`) — and a
subsequent non-creating resolve of the same path returns the identical
tree and node address. -/
theorem get_path_create_resolves (t : DBusNode) (P : List Char) (e : PyException)
    (h : t.get_path P false = .error e) :
    e = ⟨"KeyError", [Value.str "Path doesn't exist"]⟩ ∧
    ∃ t2 addr, t.get_path P true = .ok (t2, addr) ∧
      t2.get_path P false = .ok (t2, addr) ∧ NewChain t t2 addr :=
  get_path_create_main P.length P (Nat.le_refl _) t e h

/-- Witness for C2: the fresh root and the path `/a/b`. -/
theorem get_path_create_resolves_witness :
    ((⟨"KeyError", [Value.str "Path doesn't exist"]⟩ : PyException)
        = ⟨"KeyError", [Value.str "Path doesn't exist"]⟩)
    ∧ ∃ t2 addr, (DBusNode.create "").get_path "/a/b".toList true = .ok (t2, addr) ∧
        t2.get_path "/a/b".toList false = .ok (t2, addr) ∧
        NewChain (DBusNode.create "") t2 addr :=
  get_path_create_resolves (DBusNode.create "") "/a/b".toList
    ⟨"KeyError", [Value.str "Path doesn't exist"]⟩
    (by simp [DBusNode.get_path, DBusNode.create, pyStripChar, pyPartitionChar,
      DBusNode.findChild, DBusNode.children, DBusNode.default_interfaces])
